import Mathlib

/-!
Verification of the schema-to-declaration generator in `src/templates.rs`
(rsgen-avro).  The Rust code is shallowly embedded below:

* `to_camel_case` / `to_snake_case` model the `heck` crate transforms used by
  the code (`CamelCase`, `SnakeCase`), for ASCII identifier input: words are
  maximal runs of alphanumeric/underscore characters containing at least one
  alphanumeric (heck iterates `unicode_words`), split further at underscores
  and at the camel-case boundaries computed by heck's scanner.
* `sanitize` models `fn sanitize` with the `RESERVED` word set copied verbatim
  from the source (including its `"unsage"` entry).
* `Schema`, `Json`, `JNum` model `avro_rs::Schema`, `serde_json::Value` and
  `serde_json::Number` (a number is either an integer or a float carried with
  its decimal rendering; `is_i64` / `is_f64` follow serde_json).
* `GenState` models the per-run type cache `HashMap<ByAddress<&Schema>, String>`
  as an abstract partial map from schema nodes to names; `get_type` is `lookup`.
* The per-field `HashMap`s `f`, `o`, `d` built by `str_record` (and the symbol
  map of `str_enum`) are modelled as association lists built with `insertRep`
  (insert-or-replace, exactly `HashMap::insert`).  Tera receives them through
  `Context::insert`, which converts them to `serde_json::Map` values; with
  serde_json's default `BTreeMap` representation the template's `for` loops
  therefore iterate the entries in ascending key order, independently of the
  hash-map iteration order.  `sortPairs` performs that key-ordering step and
  `renderRecordText` / `renderEnumText` reproduce the literal output of the
  `record.tera` / `enum.tera` templates (with `{%- ... %}` whitespace
  trimming).
* `TError` has one constructor per distinct `err!` / `TemplateError` site of
  the source; the Debug-formatted payload strings of the messages are not
  modelled, only which site fires.
-/

/-! ## The heck casing transforms -/

/-- Scanner mode of heck's word-boundary scanner. -/
inductive WordMode where
  | boundary
  | lower
  | upper
deriving DecidableEq, Repr

/-- A character that can be part of a heck word: alphanumeric or underscore. -/
def isWordChar (c : Char) : Bool := c.isAlphanum || c == '_'

/-- Splits a character list into maximal runs of word characters
(the accumulator holds the current run, reversed). -/
def runsAux : List Char → List Char → List (List Char)
  | cur, [] => if cur.isEmpty then [] else [cur.reverse]
  | cur, c :: rest =>
    if isWordChar c then runsAux (c :: cur) rest
    else if cur.isEmpty then runsAux [] rest
    else cur.reverse :: runsAux [] rest

/-- Word segmentation as used by heck on ASCII identifiers: maximal runs of
word characters that contain at least one alphanumeric character. -/
def splitRuns (l : List Char) : List (List Char) :=
  (runsAux [] l).filter (fun r => r.any Char.isAlphanum)

/-- Splits one run at underscores, dropping the underscores and empty pieces
(the accumulator holds the current piece, reversed). -/
def splitUndAux : List Char → List Char → List (List Char)
  | cur, [] => if cur.isEmpty then [] else [cur.reverse]
  | cur, c :: rest =>
    if c == '_' then
      if cur.isEmpty then splitUndAux [] rest
      else cur.reverse :: splitUndAux [] rest
    else splitUndAux (c :: cur) rest

def splitUnd (l : List Char) : List (List Char) := splitUndAux [] l

/-- Heck's camel-boundary scanner on one underscore-free word: a boundary
falls after a lowercase-mode character followed by an uppercase one, and
before the last of an uppercase run that is followed by a lowercase
character.  Mirrors the `while let` loop of heck's `transform`. -/
def caseSplitGo : WordMode → List Char → List Char → List (List Char)
  | _, cur, [] => if cur.isEmpty then [] else [cur.reverse]
  | _, cur, [c] => [(c :: cur).reverse]
  | mode, cur, c :: next :: rest =>
    let nextMode : WordMode :=
      if c.isLower then .lower else if c.isUpper then .upper else mode
    if next.isUpper && nextMode == .lower then
      ((c :: cur).reverse) :: caseSplitGo .boundary [] (next :: rest)
    else if mode == .upper && c.isUpper && next.isLower then
      cur.reverse :: caseSplitGo .boundary [c] (next :: rest)
    else
      caseSplitGo nextMode (c :: cur) (next :: rest)

/-- All heck words of a string, in order. -/
def heckWords (s : String) : List (List Char) :=
  ((splitRuns s.data).map (fun run => (splitUnd run).map (caseSplitGo .boundary []))).flatten.flatten

/-- Lowercases a word (heck's `lowercase` word writer). -/
def lowerWord (w : List Char) : String := String.mk (w.map Char.toLower)

/-- Capitalizes a word: first character uppercased, rest lowercased
(heck's `capitalize` word writer). -/
def capWord : List Char → String
  | [] => ""
  | c :: rest => String.mk (c.toUpper :: rest.map Char.toLower)

/-- Models `heck::SnakeCase::to_snake_case`. -/
def to_snake_case (s : String) : String :=
  String.intercalate ("_") ((heckWords s).map lowerWord)

/-- Models `heck::CamelCase::to_camel_case` (upper camel case). -/
def to_camel_case (s : String) : String :=
  String.join ((heckWords s).map capWord)

/-! ## Reserved words and sanitize -/

/-- The `RESERVED` set from `lazy_static!` in the source, verbatim. -/
def RESERVED : List String :=
  ["as", "break", "const", "continue", "crate", "else", "enum", "extern",
   "false", "fn", "for", "if", "impl", "in", "let", "loop", "match", "mod",
   "move", "mut", "pub", "ref", "return", "Self", "self", "static", "struct",
   "super", "trait", "true", "type", "unsage", "use", "where", "while",
   "abstract", "alignof", "become", "box", "do", "final", "macro", "offsetof",
   "override", "priv", "proc", "pure", "sizeof", "typeof", "unsized",
   "virtual", "yields"]

/-- Models `fn sanitize`: appends `"_"` when the string is a reserved word. -/
def sanitize (s : String) : String :=
  if RESERVED.contains s then s ++ "_" else s

/-! ## JSON values and schemas -/

/-- Models `serde_json::Number`: an integer (i64/u64 storage) or a float
(f64 storage) carried together with its decimal rendering.  `is_i64` is true
for integers in i64 range, `is_f64` only for float-stored numbers, exactly as
in serde_json. -/
inductive JNum where
  | int (i : Int)
  | float (repr : String)
deriving DecidableEq, Repr

/-- Models `serde_json::Number::is_i64`. -/
def JNum.isI64 : JNum → Bool
  | .int i => decide (-(2 ^ 63) ≤ i ∧ i < 2 ^ 63)
  | .float _ => false

/-- Models `serde_json::Number::is_f64`. -/
def JNum.isF64 : JNum → Bool
  | .int _ => false
  | .float _ => true

/-- Models `serde_json::Number::to_string` (`Display`). -/
def JNum.render : JNum → String
  | .int i => toString i
  | .float r => r

/-- Models `serde_json::Value`. -/
inductive Json where
  | null
  | bool (b : Bool)
  | num (n : JNum)
  | str (s : String)
  | arr (elems : List Json)
  | obj (entries : List (String × Json))
deriving Repr

/-- Models `avro_rs::Schema`.  A record field carries
(wire name, optional JSON default, field schema), in the order the generator
reads them from `RecordField { schema, name, default, .. }`. -/
inductive Schema where
  | null
  | boolean
  | int
  | long
  | float
  | double
  | bytes
  | string
  | fixed (name : String) (size : Nat)
  | array (inner : Schema)
  | map (inner : Schema)
  | record (name : String) (fields : List (String × Option Json × Schema))
  | enum (name : String) (symbols : List String)
  | union (variants : List Schema)
deriving Repr

/-! ## UTF-8 byte interpretation of string defaults -/

/-- UTF-8 encoding of one character as byte values, as produced by Rust's
`String::into_bytes`. -/
def utf8Char (c : Char) : List Nat :=
  let n := c.toNat
  if n < 128 then [n]
  else if n < 2048 then [192 + n / 64, 128 + n % 64]
  else if n < 65536 then [224 + n / 4096, 128 + (n / 64) % 64, 128 + n % 64]
  else [240 + n / 262144, 128 + (n / 4096) % 64, 128 + (n / 64) % 64, 128 + n % 64]

/-- UTF-8 bytes of a string (Rust `s.into_bytes()`). -/
def utf8Str (s : String) : List Nat := (s.data.map utf8Char).flatten

/-- Rust's `format!("{:?}", bytes)` for a `Vec<u8>`. -/
def rustDebugList (l : List Nat) : String :=
  "[" ++ String.intercalate (", ") (l.map toString) ++ "]"

/-! ## Errors and the generation-state cache -/

/-- One constructor per distinct error site of `templates.rs`:

* `invalidDefault` — the `err!("Invalid default: ...")` and
  `err!("Invalid defaults: ...")` sites;
* `invalidNull` — `err!("Invalid use of Schema::Null")`;
* `emptySymbols` — `err!("No symbol for emum: ...")` in `str_enum`;
* `missingCachedType` — the `TemplateError("Didn't find schema ... in state ...")`
  sites of `array_type`, `map_type` and `option_type`;
* `unsupportedUnion` — `err!("Unsupported Schema:::Union ...")`;
* `wrongKind` — the `err!("Requires Schema::..., found ...")` sites. -/
inductive TError where
  | invalidDefault
  | invalidNull
  | emptySymbols
  | missingCachedType
  | unsupportedUnion
  | wrongKind
deriving DecidableEq, Repr

/-- Models `GenState`, the per-run cache `HashMap<ByAddress<&Schema>, String>`,
as an abstract partial map from schema nodes to generated type names
(`get_type` is `lookup`). -/
structure GenState where
  lookup : Schema → Option String

/-- Models `GenState::new`: the empty cache. -/
def GenState.new : GenState := ⟨fun _ => none⟩

/-! ## Association-list model of the per-field hash maps -/

/-- An entry of one of the string-to-string maps handed to tera. -/
abbrev SPair := String × String

/-- Lexicographic order on character lists by code point; on UTF-8 strings
this coincides with the byte-wise `Ord` that Rust's `BTreeMap<String, _>`
sorts by. -/
def charListLe : List Char → List Char → Bool
  | [], _ => true
  | _ :: _, [] => false
  | a :: as, b :: bs =>
    if a.toNat < b.toNat then true
    else if b.toNat < a.toNat then false
    else charListLe as bs

/-- String order of the serde_json `BTreeMap` keys. -/
def strLe (a b : String) : Prop := charListLe a.data b.data = true

/-- Key order used by the serde_json `BTreeMap` that tera iterates. -/
def keyLe (a b : SPair) : Prop := strLe a.1 b.1

theorem charListLe_total : ∀ x y : List Char, charListLe x y = true ∨ charListLe y x = true
  | [], _ => .inl rfl
  | _ :: _, [] => .inr rfl
  | a :: as, b :: bs => by
    rcases Nat.lt_trichotomy a.toNat b.toNat with h | h | h
    · exact .inl (by simp [charListLe, h])
    · rcases charListLe_total as bs with h' | h' <;>
        [exact .inl (by simp [charListLe, h, h']); exact .inr (by simp [charListLe, h, h'])]
    · exact .inr (by simp [charListLe, h])

theorem charListLe_trans : ∀ x y z : List Char,
    charListLe x y = true → charListLe y z = true → charListLe x z = true
  | [], _, _ => fun _ _ => rfl
  | a :: as, [], _ => fun h _ => by simp [charListLe] at h
  | _ :: _, _ :: _, [] => fun _ h => by simp [charListLe] at h
  | a :: as, b :: bs, c :: cs => fun h₁ h₂ => by
    simp only [charListLe] at h₁ h₂ ⊢
    rcases Nat.lt_trichotomy a.toNat b.toNat with hab | hab | hab <;>
      rcases Nat.lt_trichotomy b.toNat c.toNat with hbc | hbc | hbc <;>
      simp_all [Nat.lt_irrefl] <;>
      first
      | omega
      | (have hac : a.toNat = c.toNat := by omega
         have : ¬ a.toNat < c.toNat := by omega
         simp_all)
    exact charListLe_trans as bs cs h₁ h₂

theorem charListLe_antisymm : ∀ x y : List Char,
    charListLe x y = true → charListLe y x = true → x = y
  | [], [] => fun _ _ => rfl
  | [], _ :: _ => fun _ h => by simp [charListLe] at h
  | _ :: _, [] => fun h _ => by simp [charListLe] at h
  | a :: as, b :: bs => fun h₁ h₂ => by
    simp only [charListLe] at h₁ h₂
    rcases Nat.lt_trichotomy a.toNat b.toNat with hab | hab | hab
    · simp_all
      omega
    · have ha : a = b :=
        Char.eq_of_val_eq (UInt32.eq_of_toBitVec_eq (BitVec.eq_of_toNat_eq
          (by simpa [UInt32.toNat] using hab)))
      have : ¬ a.toNat < b.toNat := by omega
      have : ¬ b.toNat < a.toNat := by omega
      simp_all
      exact charListLe_antisymm as bs h₁ h₂
    · simp_all
      omega

instance : DecidableRel keyLe := fun a b =>
  inferInstanceAs (Decidable (charListLe a.1.data b.1.data = true))

instance : IsTotal SPair keyLe := ⟨fun a b => charListLe_total a.1.data b.1.data⟩

instance : IsTrans SPair keyLe := ⟨fun a b c h₁ h₂ => charListLe_trans a.1.data b.1.data c.1.data h₁ h₂⟩

/-- Models `HashMap::insert`: replace the value if the key is present,
append the entry otherwise. -/
def insertRep (k v : String) : List SPair → List SPair
  | [] => [(k, v)]
  | (k₀, v₀) :: rest =>
    if k₀ = k then (k, v) :: rest else (k₀, v₀) :: insertRep k v rest

/-- Serialization of a hash map into the key-ordered `serde_json::Map`
(`BTreeMap`) that tera's `for` loops iterate. -/
def sortPairs (l : List SPair) : List SPair := l.insertionSort keyLe

/-- Tera's map indexing `m[k]` (`""` cannot occur for the maps the generator
builds: every key is present). -/
def lookupKey (l : List SPair) (k : String) : String :=
  ((l.find? (fun p => p.1 == k)).map Prod.snd).getD ("")

/-! ## The tera templates

`renderRecordSorted` is the text of `RECORD_TEMPLATE` with the two loops
unrolled over already-key-ordered entry lists, reproducing tera's `{%- %}`
whitespace trimming; `renderRecordText` first applies the `BTreeMap`
ordering.  Similarly for `ENUM_TEMPLATE` and `FIXED_TEMPLATE`. -/

/-- One iteration of the struct-field loop of `RECORD_TEMPLATE`. -/
def recordFieldLine (os : List SPair) (p : SPair) : String :=
  let orig := lookupKey os p.1
  (if p.1 = orig then ("") else ("\n    #[serde(rename = \"") ++ orig ++ "\")]")
    ++ "\n    pub " ++ p.1 ++ ": " ++ p.2 ++ ","

/-- One iteration of the `Default`-constructor loop of `RECORD_TEMPLATE`. -/
def recordDefaultLine (p : SPair) : String :=
  "\n            " ++ p.1 ++ ": " ++ p.2 ++ ","

def renderRecordSorted (name : String) (fs os ds : List SPair) : String :=
  "\n#[serde(default)]\n#[derive(Debug, Deserialize, Serialize)]\npub struct "
    ++ name ++ " \x7b"
    ++ String.join (fs.map (recordFieldLine os))
    ++ "\n\x7d\n\nimpl Default for " ++ name ++ " \x7b\n    fn default() -> "
    ++ name ++ " \x7b\n        " ++ name ++ " \x7b"
    ++ String.join (ds.map recordDefaultLine)
    ++ "\n        \x7d\n    \x7d\n\x7d\n"

/-- Rendering of `RECORD_TERA` on the maps `fields`, `originals`, `defaults`. -/
def renderRecordText (name : String) (f o d : List SPair) : String :=
  renderRecordSorted name (sortPairs f) (sortPairs o) (sortPairs d)

/-- One iteration of the symbol loop of `ENUM_TEMPLATE`. -/
def enumSymbolLine (p : SPair) : String :=
  (if p.1 = p.2 then ("") else ("\n    #[serde(rename = \"") ++ p.2 ++ "\")]")
    ++ "\n    " ++ p.1 ++ ","

def renderEnumSorted (name : String) (ss : List SPair) : String :=
  "\n#[derive(Debug, Deserialize, Serialize)]\npub enum " ++ name ++ " \x7b"
    ++ String.join (ss.map enumSymbolLine)
    ++ "\n\x7d\n"

/-- Rendering of `ENUM_TERA` on the symbols map. -/
def renderEnumText (name : String) (s : List SPair) : String :=
  renderEnumSorted name (sortPairs s)

/-- Rendering of `FIXED_TERA`. -/
def renderFixedText (name : String) (size : Nat) : String :=
  "\npub type " ++ name ++ " = [u8; " ++ toString size ++ "];\n"

/-! ## The type resolvers -/

/-- Models `fn array_type`. -/
def array_type (inner : Schema) (gs : GenState) : Except TError String :=
  match inner with
  | .boolean => .ok ("Vec<bool>")
  | .int => .ok ("Vec<i32>")
  | .long => .ok ("Vec<i64>")
  | .float => .ok ("Vec<f32>")
  | .double => .ok ("Vec<f64>")
  | .bytes => .ok ("Vec<Vec<u8>>")
  | .string => .ok ("Vec<String>")
  | .fixed f_name _ => .ok ("Vec<" ++ sanitize (to_camel_case f_name) ++ ">")
  | .array _ | .map _ | .union _ =>
    match gs.lookup inner with
    | some t => .ok ("Vec<" ++ t ++ ">")
    | none => .error .missingCachedType
  | .record n _ | .enum n _ => .ok ("Vec<" ++ sanitize (to_camel_case n) ++ ">")
  | .null => .error .invalidNull

/-- Models `fn map_of`. -/
def map_of (t : String) : String :=
  "::std::collections::HashMap<String, " ++ t ++ ">"

/-- Models `fn map_type`. -/
def map_type (inner : Schema) (gs : GenState) : Except TError String :=
  match inner with
  | .boolean => .ok (map_of ("bool"))
  | .int => .ok (map_of ("i32"))
  | .long => .ok (map_of ("i64"))
  | .float => .ok (map_of ("f32"))
  | .double => .ok (map_of ("f64"))
  | .bytes => .ok (map_of ("Vec<u8>"))
  | .string => .ok (map_of ("String"))
  | .fixed f_name _ => .ok (map_of (sanitize (to_camel_case f_name)))
  | .array _ | .map _ | .union _ =>
    match gs.lookup inner with
    | some t => .ok (map_of t)
    | none => .error .missingCachedType
  | .record n _ | .enum n _ => .ok (map_of (sanitize (to_camel_case n)))
  | .null => .error .invalidNull

/-- Models `fn option_type`. -/
def option_type (inner : Schema) (gs : GenState) : Except TError String :=
  match inner with
  | .boolean => .ok ("Option<bool>")
  | .int => .ok ("Option<i32>")
  | .long => .ok ("Option<i64>")
  | .float => .ok ("Option<f32>")
  | .double => .ok ("Option<f64>")
  | .bytes => .ok ("Option<Vec<u8>>")
  | .string => .ok ("Option<String>")
  | .fixed f_name _ => .ok ("Option<" ++ sanitize (to_camel_case f_name) ++ ">")
  | .array _ | .map _ | .union _ =>
    match gs.lookup inner with
    | some t => .ok ("Option<" ++ t ++ ">")
    | none => .error .missingCachedType
  | .record n _ | .enum n _ => .ok ("Option<" ++ sanitize (to_camel_case n) ++ ">")
  | .null => .error .invalidNull

/-! ## The default-value compilers -/

/-- Models `fn map_default`: the item schema and the supplied default are
both ignored. -/
def map_default (_ : Schema) (_ : Option Json) : Except TError String :=
  .ok ("::std::collections::HashMap::new()")

/-- Models `fn option_default`. -/
def option_default (_ : Schema) (default : Option Json) : Except TError String :=
  match default with
  | none => .ok ("None")
  | some (.str s) => if s = "null" then .ok ("None") else .error .invalidDefault
  | some _ => .error .invalidDefault

/-- Models the element-conversion closure `to_default_str` built inside
`fn array_default` for a given item schema, applied to one JSON element.
The `.array` arm is `array_default`'s own body on `Some(v)` (the closure for
`Schema::Array(s)` recursively calls `array_default(s, &Some(v.clone()))`),
and the `.map` arm is `map_default`'s body. -/
def to_default_str : Schema → Json → Except TError String
  | .null, _ => .error .invalidNull
  | .boolean, v =>
    match v with
    | .bool b => .ok (toString b)
    | _ => .error .invalidDefault
  | .int, v =>
    match v with
    | .num n => if n.isI64 then .ok n.render else .error .invalidDefault
    | _ => .error .invalidDefault
  | .long, v =>
    match v with
    | .num n => if n.isI64 then .ok n.render else .error .invalidDefault
    | _ => .error .invalidDefault
  | .float, v =>
    match v with
    | .num n => if n.isF64 then .ok n.render else .error .invalidDefault
    | _ => .error .invalidDefault
  | .double, v =>
    match v with
    | .num n => if n.isF64 then .ok n.render else .error .invalidDefault
    | _ => .error .invalidDefault
  | .bytes, v =>
    match v with
    | .str s => .ok ("vec!" ++ rustDebugList (utf8Str s))
    | _ => .error .invalidDefault
  | .string, v =>
    match v with
    | .str s => .ok s
    | _ => .error .invalidDefault
  | .fixed _ size, v =>
    match v with
    | .str s =>
      if (utf8Str s).length = size then .ok (rustDebugList (utf8Str s))
      else .error .invalidDefault
    | _ => .error .invalidDefault
  | .array s, v =>
    match s with
    | .null => .error .invalidNull
    | _ =>
      match v with
      | .arr vals =>
        match vals.mapM (to_default_str s) with
        | .ok strs => .ok ("vec![" ++ String.intercalate (", ") strs ++ "]")
        | .error e => .error e
      | _ => .ok ("vec![]")
  | .map _, _ => .ok ("::std::collections::HashMap::new()")
  | .enum _ symbols, v =>
    match v with
    | .str s =>
      let s' := sanitize (to_camel_case s)
      if (symbols.map (fun q => sanitize (to_camel_case q))).contains s' then .ok s'
      else .error .invalidDefault
    | _ => .error .invalidDefault
  | .union _, _ => .ok ("None")
  | .record n _, _ => .ok (sanitize (to_camel_case n) ++ "::default()")

/-- Models `fn array_default`: the item-schema match (whose only eager error
is `Schema::Null`) happens before the default is inspected; an explicit JSON
array converts its elements in order with `to_default_str`, anything else
falls back to `vec![]`. -/
def array_default (inner : Schema) (default : Option Json) : Except TError String :=
  match inner with
  | .null => .error .invalidNull
  | _ =>
    match default with
    | some (.arr vals) =>
      match vals.mapM (to_default_str inner) with
      | .ok strs => .ok ("vec![" ++ String.intercalate (", ") strs ++ "]")
      | .error e => .error e
    | _ => .ok ("vec![]")

instance : DecidableEq (Except TError String) := fun a b =>
  match a, b with
  | .ok x, .ok y => if h : x = y then .isTrue (by rw [h]) else .isFalse (by simp [h])
  | .error x, .error y => if h : x = y then .isTrue (by rw [h]) else .isFalse (by simp [h])
  | .ok _, .error _ => .isFalse (by simp)
  | .error _, .ok _ => .isFalse (by simp)


/-! ## The generators -/

/-- The body of the per-field `match schema` of `Templater::str_record`,
returning the pair (entry of `f`, entry of `d`) inserted for the field, or
the error that aborts generation. -/
def fieldTypeDefault (gs : GenState) (schema : Schema) (default : Option Json) :
    Except TError (String × String) :=
  match schema with
  | .boolean =>
    match default with
    | some (.bool b) => .ok ("bool", toString b)
    | none => .ok ("bool", "false")
    | some _ => .error .invalidDefault
  | .int =>
    match default with
    | some (.num n) => if n.isI64 then .ok ("i32", n.render) else .error .invalidDefault
    | none => .ok ("i32", "0")
    | some _ => .error .invalidDefault
  | .long =>
    match default with
    | some (.num n) => if n.isI64 then .ok ("i64", n.render) else .error .invalidDefault
    | none => .ok ("i64", "0")
    | some _ => .error .invalidDefault
  | .float =>
    match default with
    | some (.num n) => if n.isF64 then .ok ("f32", n.render) else .error .invalidDefault
    | none => .ok ("f32", "0")
    | some _ => .error .invalidDefault
  | .double =>
    match default with
    | some (.num n) => if n.isF64 then .ok ("f64", n.render) else .error .invalidDefault
    | none => .ok ("f64", "0")
    | some _ => .error .invalidDefault
  | .bytes =>
    match default with
    | some (.str s) => .ok ("Vec<u8>", "vec!" ++ rustDebugList (utf8Str s))
    | none => .ok ("Vec<u8>", "vec![]")
    | some _ => .error .invalidDefault
  | .string =>
    match default with
    | some (.str s) => .ok ("String", "\"" ++ s ++ "\".to_owned()")
    | none => .ok ("String", "String::default()")
    | some _ => .error .invalidDefault
  | .fixed f_name size =>
    let fn' := sanitize (to_camel_case f_name)
    match default with
    | some (.str s) =>
      if (utf8Str s).length = size then .ok (fn', rustDebugList (utf8Str s))
      else .error .invalidDefault
    | none => .ok (fn', fn' ++ "::default()")
    | some _ => .error .invalidDefault
  | .array inner =>
    match inner with
    | .null => .error .invalidNull
    | _ =>
      match array_type inner gs with
      | .error e => .error e
      | .ok ty =>
        match array_default inner default with
        | .error e => .error e
        | .ok ds => .ok (ty, ds)
  | .map inner =>
    match inner with
    | .null => .error .invalidNull
    | _ =>
      match map_type inner gs with
      | .error e => .error e
      | .ok ty =>
        match map_default inner default with
        | .error e => .error e
        | .ok ds => .ok (ty, ds)
  | .record r_name _ =>
    let rn := sanitize (to_camel_case r_name)
    .ok (rn, rn ++ "::default()")
  | .enum e_name symbols =>
    let en := sanitize (to_camel_case e_name)
    match default with
    | some (.str s) => .ok (en, s)
    | none =>
      match symbols with
      | s₀ :: _ => .ok (en, sanitize (to_camel_case s₀))
      | [] => .error .invalidDefault
    | some _ => .error .invalidDefault
  | .union variants =>
    match variants with
    | [.null, inner] =>
      match option_type inner gs with
      | .error e => .error e
      | .ok ty =>
        match option_default inner default with
        | .error e => .error e
        | .ok ds => .ok (ty, ds)
    | _ => .error .unsupportedUnion
  | .null => .error .invalidNull

/-- The field loop of `Templater::str_record`: builds the three hash maps
`f` (name to type), `o` (name to original wire name) and `d` (name to
default expression), keyed by `sanitize(name.to_snake_case())`; the original
name is inserted before the schema match, and the first failing field aborts
generation. -/
def buildFieldMaps (gs : GenState) :
    List (String × Option Json × Schema) →
    List SPair × List SPair × List SPair →
    Except TError (List SPair × List SPair × List SPair)
  | [], acc => .ok acc
  | (nm, df, sc) :: rest, (f, o, d) =>
    let k := sanitize (to_snake_case nm)
    let o' := insertRep k nm o
    match fieldTypeDefault gs sc df with
    | .error e => .error e
    | .ok (ty, ds) => buildFieldMaps gs rest (insertRep k ty f, o', insertRep k ds d)

/-- Models `Templater::str_record`: builds the field maps and renders
`RECORD_TERA`; the struct name is `name.to_camel_case()` without `sanitize`. -/
def str_record (schema : Schema) (gs : GenState) : Except TError String :=
  match schema with
  | .record name fields =>
    match buildFieldMaps gs fields ([], [], []) with
    | .error e => .error e
    | .ok (f, o, d) => .ok (renderRecordText (to_camel_case name) f o d)
  | _ => .error .wrongKind

/-- The symbols map of `Templater::str_enum`: collecting the iterator of
`(sanitize(s.to_camel_case()), s)` pairs into a `HashMap`. -/
def buildSymPairs (symbols : List String) : List SPair :=
  symbols.foldl (fun acc s => insertRep (sanitize (to_camel_case s)) s acc) []

/-- Models `Templater::str_enum`. -/
def str_enum (schema : Schema) : Except TError String :=
  match schema with
  | .enum name symbols =>
    if symbols.isEmpty then .error .emptySymbols
    else .ok (renderEnumText (sanitize (to_camel_case name)) (buildSymPairs symbols))
  | _ => .error .wrongKind

/-- Models `Templater::str_fixed`. -/
def str_fixed (schema : Schema) : Except TError String :=
  match schema with
  | .fixed name size => .ok (renderFixedText (sanitize (to_camel_case name)) size)
  | _ => .error .wrongKind

/-! ## Properties of the map model -/

theorem insertRep_keys_mem (k v x : String) (l : List SPair) :
    x ∈ (insertRep k v l).map Prod.fst ↔ x = k ∨ x ∈ l.map Prod.fst := by
  induction l with
  | nil => simp [insertRep]
  | cons p rest ih =>
    obtain ⟨k₀, v₀⟩ := p
    by_cases h : k₀ = k
    · subst h
      simp [insertRep]
    · simp [insertRep, h, ih]
      tauto

theorem insertRep_keys_nodup (k v : String) (l : List SPair)
    (h : (l.map Prod.fst).Nodup) : ((insertRep k v l).map Prod.fst).Nodup := by
  induction l with
  | nil => simp [insertRep]
  | cons p rest ih =>
    obtain ⟨k₀, v₀⟩ := p
    simp only [List.map_cons, List.nodup_cons] at h
    by_cases hk : k₀ = k
    · subst hk
      simpa [insertRep] using h
    · simp only [insertRep, hk, if_false, List.map_cons, List.nodup_cons]
      refine ⟨fun hmem => ?_, ih h.2⟩
      rcases (insertRep_keys_mem k v k₀ rest).mp hmem with h' | h'
      · exact hk h'
      · exact h.1 h'

theorem sortPairs_perm (l : List SPair) : (sortPairs l).Perm l :=
  List.perm_insertionSort keyLe l

theorem sortPairs_sorted (l : List SPair) : (sortPairs l).Sorted keyLe :=
  List.sorted_insertionSort keyLe l

theorem sorted_strict_of_nodup (l : List SPair) (hs : l.Sorted keyLe)
    (hnd : (l.map Prod.fst).Nodup) : l.Pairwise (fun a b => keyLe a b ∧ a.1 ≠ b.1) := by
  have hne : l.Pairwise (fun a b : SPair => a.1 ≠ b.1) := List.pairwise_map.mp hnd
  exact hs.and hne

/-- Two hash-map snapshots holding the same entries (in any iteration order,
with distinct keys) serialize to the same key-ordered entry list. -/
theorem sortPairs_eq_of_perm (l₁ l₂ : List SPair) (hp : l₁.Perm l₂)
    (hnd : (l₂.map Prod.fst).Nodup) : sortPairs l₁ = sortPairs l₂ := by
  have hps : (sortPairs l₁).Perm (sortPairs l₂) :=
    (sortPairs_perm l₁).trans (hp.trans (sortPairs_perm l₂).symm)
  have hnd₂ : ((sortPairs l₂).map Prod.fst).Nodup :=
    (((sortPairs_perm l₂).map Prod.fst).nodup_iff).mpr hnd
  have hnd₁ : ((sortPairs l₁).map Prod.fst).Nodup :=
    ((hps.map Prod.fst).nodup_iff).mpr hnd₂
  have hlt₁ := sorted_strict_of_nodup _ (sortPairs_sorted l₁) hnd₁
  have hlt₂ := sorted_strict_of_nodup _ (sortPairs_sorted l₂) hnd₂
  haveI : IsAntisymm SPair (fun a b : SPair => keyLe a b ∧ a.1 ≠ b.1) :=
    ⟨fun a b h₁ h₂ =>
      absurd (String.ext (charListLe_antisymm a.1.data b.1.data h₁.1 h₂.1)) h₁.2⟩
  exact List.eq_of_perm_of_sorted hps hlt₁ hlt₂

theorem buildFieldMaps_nodup (gs : GenState) :
    ∀ (fields : List (String × Option Json × Schema)) (f o d f' o' d' : List SPair),
    (f.map Prod.fst).Nodup → (o.map Prod.fst).Nodup → (d.map Prod.fst).Nodup →
    buildFieldMaps gs fields (f, o, d) = .ok (f', o', d') →
    (f'.map Prod.fst).Nodup ∧ (o'.map Prod.fst).Nodup ∧ (d'.map Prod.fst).Nodup := by
  intro fields
  induction fields with
  | nil =>
    intro f o d f' o' d' hf ho hd h
    simp only [buildFieldMaps, Except.ok.injEq] at h
    obtain ⟨rfl, rfl, rfl⟩ := Prod.mk.injEq .. ▸ h
    · exact ⟨hf, ho, hd⟩
  | cons fld rest ih =>
    intro f o d f' o' d' hf ho hd h
    obtain ⟨nm, df, sc⟩ := fld
    simp only [buildFieldMaps] at h
    cases hft : fieldTypeDefault gs sc df with
    | error e => rw [hft] at h; exact absurd h (by simp)
    | ok p =>
      obtain ⟨ty, ds⟩ := p
      rw [hft] at h
      exact ih _ _ _ _ _ _ (insertRep_keys_nodup _ _ _ hf)
        (insertRep_keys_nodup _ _ _ ho) (insertRep_keys_nodup _ _ _ hd) h

theorem buildSymPairs_nodup (symbols : List String) :
    ((buildSymPairs symbols).map Prod.fst).Nodup := by
  suffices h : ∀ acc : List SPair, (acc.map Prod.fst).Nodup →
      ((symbols.foldl (fun acc s => insertRep (sanitize (to_camel_case s)) s acc) acc).map
        Prod.fst).Nodup by
    exact h [] (by simp)
  induction symbols with
  | nil => intro acc hacc; simpa using hacc
  | cons s rest ih =>
    intro acc hacc
    exact ih _ (insertRep_keys_nodup _ _ _ hacc)

/-! ## Claims -/

/-- Claim C9 (confirmed): for every record field of Map type the resolved
default expression is the empty-mapping initializer, regardless of the item
schema and of any literal default present in the schema (a literal default
such as a populated JSON object still yields an empty mapping), and
`map_default` never errors on such literals. -/
theorem c9_map_default_empty :
    (∀ (inner : Schema) (default : Option Json),
      map_default inner default = .ok ("::std::collections::HashMap::new()"))
    ∧ str_record (.record ("R") [("m", some (.obj [("a", .num (.float ("1.0")))]), .map .double)])
        GenState.new
      = .ok (renderRecordSorted ("R") [("m", map_of ("f64"))] [("m", "m")]
          [("m", "::std::collections::HashMap::new()")]) :=
  ⟨fun _ _ => rfl, rfl⟩

/-- Claim C5 (confirmed): for a nullable-union field, only an absent default
or the explicit string default "null" resolve to the none value; every other
default literal (a different string, or any non-string JSON value) makes
generation fail at the invalid-default error site, as does the concrete
record with a `[Null, String]` field defaulted to "hello". -/
theorem c5_option_default_null_only :
    (∀ inner : Schema, option_default inner none = .ok ("None"))
    ∧ (∀ inner : Schema, option_default inner (some (.str ("null"))) = .ok ("None"))
    ∧ (∀ (inner : Schema) (s : String), s ≠ "null" →
        option_default inner (some (.str s)) = .error .invalidDefault)
    ∧ (∀ (inner : Schema) (v : Json), (∀ s, v ≠ .str s) →
        option_default inner (some v) = .error .invalidDefault)
    ∧ str_record (.record ("R") [("f", some (.str ("hello")), .union [.null, .string])])
        GenState.new
      = .error .invalidDefault := by
  refine ⟨fun _ => rfl, fun _ => rfl, fun inner s hs => ?_, fun inner v hv => ?_, rfl⟩
  · simp only [option_default]
    rw [if_neg hs]
  · cases v <;> first | rfl | exact absurd rfl (hv _)

/-- Witness for C5, applying the theorem at the default "hello" and at the
non-string default `true`. -/
theorem c5_option_default_null_only_witness :
    option_default .string (some (.str ("hello"))) = .error .invalidDefault
    ∧ option_default .string (some (.bool true)) = .error .invalidDefault :=
  ⟨c5_option_default_null_only.2.2.1 .string ("hello") (by decide),
   c5_option_default_null_only.2.2.2.1 .string (.bool true) (fun s => by simp)⟩

/-- Claim C7 (confirmed): for an Array field whose item schema is not Null
(the only item schema `str_record` rejects before default resolution), an
explicit JSON-array default converts its elements one by one, in declaration
order, with the item-schema converter `to_default_str`, producing the ordered
`vec![..]` literal; any other default value, malformed JSON included, yields
the empty `vec![]` without an error; and the array-of-int default `[12, -1]`
yields `vec![12, -1]`. -/
theorem c7_array_default_elements :
    (∀ (inner : Schema) (vals : List Json) (strs : List String), inner ≠ .null →
      vals.mapM (to_default_str inner) = .ok strs →
      array_default inner (some (.arr vals))
        = .ok ("vec![" ++ String.intercalate (", ") strs ++ "]"))
    ∧ (∀ (inner : Schema) (default : Option Json), inner ≠ .null →
      (∀ vals, default ≠ some (.arr vals)) →
      array_default inner default = .ok ("vec![]"))
    ∧ array_default .int (some (.arr [.num (.int 12), .num (.int (-1))]))
      = .ok ("vec![12, -1]") := by
  refine ⟨fun inner vals strs hnull hm => ?_, fun inner default hnull hd => ?_, rfl⟩
  · replace hm : List.mapM.loop (to_default_str inner) vals [] = .ok strs := hm
    cases inner <;> first | exact absurd rfl hnull | simp [array_default, hm]
  · rcases default with _ | v
    · cases inner <;> first | exact absurd rfl hnull | rfl
    · cases v <;>
        first
        | exact absurd rfl (hd _)
        | cases inner <;> first | exact absurd rfl hnull | rfl

/-- Witness for C7: the theorem applied to an array-of-boolean field with the
default `[true, false]`, and to a non-array default. -/
theorem c7_array_default_elements_witness :
    array_default .boolean (some (.arr [.bool true, .bool false])) = .ok ("vec![true, false]")
    ∧ array_default .boolean (some (.bool true)) = .ok ("vec![]") :=
  ⟨c7_array_default_elements.1 .boolean [.bool true, .bool false] ["true", "false"]
      (by simp) rfl,
   c7_array_default_elements.2.1 .boolean (some (.bool true)) (by simp)
      (fun vals => by simp)⟩

/-- Claim C3 is refuted at this input: `array_type` applied to an Enum inner
schema with an empty, fresh cache does not fail with the missing-cached-type
error; it succeeds by re-deriving the name from the enum's own name, so the
cache is not consulted for Record/Enum inner schemas. -/
theorem c3_counterexample :
    GenState.new.lookup (.enum ("Colors") ["GREEN", "BLUE"]) = none
    ∧ array_type (.enum ("Colors") ["GREEN", "BLUE"]) GenState.new = .ok ("Vec<Colors>") :=
  ⟨rfl, rfl⟩

/-- Claim C3 (amended): only for inner schemas that are themselves Array, Map
or Union do `array_type`, `map_type` and `option_type` take the inner type
name from the cache, failing with the missing-cached-type error on a miss;
for inner Record and Enum schemas the name is re-derived as the sanitized
camel-case of the schema's own name, without touching the cache. -/
theorem c3_amended (gs : GenState) (x : Schema) (vs : List Schema) :
    (gs.lookup (.array x) = none →
      array_type (.array x) gs = .error .missingCachedType
      ∧ map_type (.array x) gs = .error .missingCachedType
      ∧ option_type (.array x) gs = .error .missingCachedType)
    ∧ (∀ t, gs.lookup (.array x) = some t →
      array_type (.array x) gs = .ok ("Vec<" ++ t ++ ">")
      ∧ map_type (.array x) gs = .ok (map_of t)
      ∧ option_type (.array x) gs = .ok ("Option<" ++ t ++ ">"))
    ∧ (gs.lookup (.map x) = none →
      array_type (.map x) gs = .error .missingCachedType
      ∧ map_type (.map x) gs = .error .missingCachedType
      ∧ option_type (.map x) gs = .error .missingCachedType)
    ∧ (∀ t, gs.lookup (.map x) = some t →
      array_type (.map x) gs = .ok ("Vec<" ++ t ++ ">")
      ∧ map_type (.map x) gs = .ok (map_of t)
      ∧ option_type (.map x) gs = .ok ("Option<" ++ t ++ ">"))
    ∧ (gs.lookup (.union vs) = none →
      array_type (.union vs) gs = .error .missingCachedType
      ∧ map_type (.union vs) gs = .error .missingCachedType
      ∧ option_type (.union vs) gs = .error .missingCachedType)
    ∧ (∀ t, gs.lookup (.union vs) = some t →
      array_type (.union vs) gs = .ok ("Vec<" ++ t ++ ">")
      ∧ map_type (.union vs) gs = .ok (map_of t)
      ∧ option_type (.union vs) gs = .ok ("Option<" ++ t ++ ">"))
    ∧ (∀ (n : String) (fs : List (String × Option Json × Schema)),
      array_type (.record n fs) gs = .ok ("Vec<" ++ sanitize (to_camel_case n) ++ ">")
      ∧ map_type (.record n fs) gs = .ok (map_of (sanitize (to_camel_case n)))
      ∧ option_type (.record n fs) gs = .ok ("Option<" ++ sanitize (to_camel_case n) ++ ">"))
    ∧ (∀ (n : String) (syms : List String),
      array_type (.enum n syms) gs = .ok ("Vec<" ++ sanitize (to_camel_case n) ++ ">")
      ∧ map_type (.enum n syms) gs = .ok (map_of (sanitize (to_camel_case n)))
      ∧ option_type (.enum n syms) gs = .ok ("Option<" ++ sanitize (to_camel_case n) ++ ">")) := by
  refine ⟨fun h => ⟨?_, ?_, ?_⟩, fun t h => ⟨?_, ?_, ?_⟩, fun h => ⟨?_, ?_, ?_⟩,
    fun t h => ⟨?_, ?_, ?_⟩, fun h => ⟨?_, ?_, ?_⟩, fun t h => ⟨?_, ?_, ?_⟩,
    fun n fs => ⟨?_, ?_, ?_⟩, fun n syms => ⟨?_, ?_, ?_⟩⟩ <;>
    simp [array_type, map_type, option_type, *]

/-- Witness for C3 (amended): a fresh cache misses, a cache holding an entry
for the nested array hits, and an enum inner schema never needs the cache. -/
theorem c3_amended_witness :
    array_type (.array .int) GenState.new = .error .missingCachedType
    ∧ array_type (.array .int) ⟨fun s => match s with | .array .int => some ("X") | _ => none⟩
      = .ok ("Vec<" ++ "X" ++ ">")
    ∧ array_type (.enum ("E") []) GenState.new
      = .ok ("Vec<" ++ sanitize (to_camel_case ("E")) ++ ">") :=
  ⟨((c3_amended GenState.new .int []).1 rfl).1,
   ((c3_amended ⟨fun s => match s with | .array .int => some ("X") | _ => none⟩ .int []).2.1
      "X" rfl).1,
   ((c3_amended GenState.new .int []).2.2.2.2.2.2.2 ("E") []).1⟩

/-- Claim C1 is refuted at this input: the enum `Colors` declared with
symbols GREEN, BLUE renders with Blue before Green (ascending order of the
normalized symbol), not in declaration order. -/
theorem c1_counterexample :
    str_enum (.enum ("Colors") ["GREEN", "BLUE"])
      = .ok (renderEnumSorted ("Colors") [("Blue", "BLUE"), ("Green", "GREEN")])
    ∧ str_enum (.enum ("Colors") ["GREEN", "BLUE"])
      ≠ .ok (renderEnumSorted ("Colors") [("Green", "GREEN"), ("Blue", "BLUE")]) :=
  ⟨rfl, by decide⟩

/-- Claim C1 (amended): the fields of `str_record` and the symbols of
`str_enum` are emitted in ascending lexicographic order of the normalized
identifier (the hash maps are serialized into key-ordered maps before tera
iterates them), not in schema declaration order. -/
theorem c1_amended :
    (∀ (name : String) (syms : List String), syms ≠ [] →
      str_enum (.enum name syms)
        = .ok (renderEnumSorted (sanitize (to_camel_case name)) (sortPairs (buildSymPairs syms)))
      ∧ ((sortPairs (buildSymPairs syms)).map Prod.fst).Sorted strLe)
    ∧ (∀ (name : String) (fields : List (String × Option Json × Schema)) (gs : GenState)
        (f o d : List SPair), buildFieldMaps gs fields ([], [], []) = .ok (f, o, d) →
      str_record (.record name fields) gs
        = .ok (renderRecordSorted (to_camel_case name) (sortPairs f) (sortPairs o) (sortPairs d))
      ∧ ((sortPairs f).map Prod.fst).Sorted strLe
      ∧ ((sortPairs d).map Prod.fst).Sorted strLe) := by
  constructor
  · intro name syms h
    cases syms with
    | nil => exact absurd rfl h
    | cons s rest => exact ⟨rfl, List.pairwise_map.mpr (sortPairs_sorted _)⟩
  · intro name fields gs f o d hb
    refine ⟨?_, List.pairwise_map.mpr (sortPairs_sorted _),
      List.pairwise_map.mpr (sortPairs_sorted _)⟩
    simp only [str_record, hb]
    rfl

/-- Witness for C1 (amended): the theorem applied to the Colors enum and to a
one-field record. -/
theorem c1_amended_witness :
    str_enum (.enum ("Colors") ["GREEN", "BLUE"])
      = .ok (renderEnumSorted (sanitize (to_camel_case ("Colors")))
          (sortPairs (buildSymPairs ["GREEN", "BLUE"])))
    ∧ str_record (.record ("R") [("b", none, .int)]) GenState.new
      = .ok (renderRecordSorted (to_camel_case ("R")) (sortPairs [("b", "i32")])
          (sortPairs [("b", "b")]) (sortPairs [("b", "0")])) :=
  ⟨(c1_amended.1 ("Colors") ["GREEN", "BLUE"] (by simp)).1,
   (c1_amended.2 ("R") [("b", none, .int)] GenState.new [("b", "i32")] [("b", "b")]
      [("b", "0")] rfl).1⟩

/-- Claim C2 (confirmed): generation is a deterministic function of the
schema tree.  The only nondeterminism in the source is the iteration order of
the per-field/per-symbol hash maps, and rendering is invariant under it: any
two snapshots of those maps (arbitrary permutations of the built entry lists)
render to byte-identical text, and `str_fixed` uses no map at all, so two
runs from fresh caches give byte-identical output. -/
theorem c2_determinism :
    (∀ (name : String) (fields : List (String × Option Json × Schema)) (gs : GenState)
        (f o d f' o' d' : List SPair),
      buildFieldMaps gs fields ([], [], []) = .ok (f, o, d) →
      f'.Perm f → o'.Perm o → d'.Perm d →
      renderRecordText name f' o' d' = renderRecordText name f o d)
    ∧ (∀ (syms : List String) (ps : List SPair) (name : String),
      ps.Perm (buildSymPairs syms) →
      renderEnumText name ps = renderEnumText name (buildSymPairs syms))
    ∧ (∀ s : Schema, str_fixed s = str_fixed s) := by
  refine ⟨fun name fields gs f o d f' o' d' hb hpf hpo hpd => ?_,
    fun syms ps name hp => ?_, fun _ => rfl⟩
  · obtain ⟨hf, ho, hd⟩ :=
      buildFieldMaps_nodup gs fields [] [] [] f o d (by simp) (by simp) (by simp) hb
    unfold renderRecordText
    rw [sortPairs_eq_of_perm f' f hpf hf, sortPairs_eq_of_perm o' o hpo ho,
      sortPairs_eq_of_perm d' d hpd hd]
  · unfold renderEnumText
    rw [sortPairs_eq_of_perm ps (buildSymPairs syms) hp (buildSymPairs_nodup syms)]

/-- Witness for C2: a two-field record whose maps are fed to the renderer in
the two possible hash-iteration orders renders identically. -/
theorem c2_determinism_witness :
    renderRecordText ("R") [("b", "bool"), ("a", "i32")] [("b", "b"), ("a", "a")]
      [("b", "false"), ("a", "0")]
      = renderRecordText ("R") [("a", "i32"), ("b", "bool")] [("a", "a"), ("b", "b")]
        [("a", "0"), ("b", "false")] :=
  c2_determinism.1 ("R") [("a", none, .int), ("b", none, .boolean)] GenState.new
    _ _ _ _ _ _ rfl (List.Perm.swap _ _ _) (List.Perm.swap _ _ _) (List.Perm.swap _ _ _)

set_option maxRecDepth 8192 in
/-- Claim C4 is refuted at this input: for an enum-typed field with the
supplied string default "GREEN", the generated default expression is the
verbatim string "GREEN", not the normalized symbol "Green" that the claim
requires. -/
theorem c4_counterexample :
    str_record (.record ("R") [("c", some (.str ("GREEN")), .enum ("Colors") ["GREEN", "BLUE"])])
        GenState.new
      = .ok (renderRecordSorted ("R") [("c", "Colors")] [("c", "c")] [("c", "GREEN")])
    ∧ str_record (.record ("R") [("c", some (.str ("GREEN")), .enum ("Colors") ["GREEN", "BLUE"])])
        GenState.new
      ≠ .ok (renderRecordSorted ("R") [("c", "Colors")] [("c", "c")] [("c", "Green")]) :=
  ⟨rfl, by decide⟩

/-- Claim C4 (amended): for an enum-typed record field, a supplied string
default is used verbatim (not normalized and not checked against the symbol
set, even when the enum declares zero symbols); an absent default resolves to
the normalized (camel-case, reserved-word-sanitized) first declared symbol;
and an absent default with zero declared symbols fails at the
invalid-default error site of `str_record`, not at the empty-symbol-set site
(which only `str_enum` uses). -/
theorem c4_amended :
    (∀ (rn fname ename s : String) (syms : List String) (gs : GenState),
      str_record (.record rn [(fname, some (.str s), .enum ename syms)]) gs
        = .ok (renderRecordText (to_camel_case rn)
            [(sanitize (to_snake_case fname), sanitize (to_camel_case ename))]
            [(sanitize (to_snake_case fname), fname)]
            [(sanitize (to_snake_case fname), s)]))
    ∧ (∀ (rn fname ename s₀ : String) (rest : List String) (gs : GenState),
      str_record (.record rn [(fname, none, .enum ename (s₀ :: rest))]) gs
        = .ok (renderRecordText (to_camel_case rn)
            [(sanitize (to_snake_case fname), sanitize (to_camel_case ename))]
            [(sanitize (to_snake_case fname), fname)]
            [(sanitize (to_snake_case fname), sanitize (to_camel_case s₀))]))
    ∧ (∀ (rn fname ename : String) (gs : GenState),
      str_record (.record rn [(fname, none, .enum ename [])]) gs
        = .error .invalidDefault) :=
  ⟨fun _ _ _ _ _ _ => rfl, fun _ _ _ _ _ _ => rfl, fun _ _ _ _ => rfl⟩

/-- Claim C10 (confirmed): when two distinct fields normalize to the same
identifier, `str_record` raises no error; the later field's type, default
expression and original wire name replace the earlier entries in the three
per-field maps, and the emitted declaration holds a single field under that
identifier (here the pair aB / a_b, both normalizing to a_b). -/
theorem c10_duplicate_normalized_names :
    (∀ (n₁ n₂ : String) (gs : GenState),
      sanitize (to_snake_case n₁) = sanitize (to_snake_case n₂) →
      buildFieldMaps gs [(n₁, none, .int), (n₂, none, .string)] ([], [], [])
        = .ok ([(sanitize (to_snake_case n₂), "String")],
            [(sanitize (to_snake_case n₂), n₂)],
            [(sanitize (to_snake_case n₂), "String::default()")]))
    ∧ str_record (.record ("R") [("aB", none, .int), ("a_b", none, .string)]) GenState.new
      = .ok (renderRecordSorted ("R") [("a_b", "String")] [("a_b", "a_b")]
          [("a_b", "String::default()")]) := by
  refine ⟨fun n₁ n₂ gs h => ?_, rfl⟩
  simp [buildFieldMaps, fieldTypeDefault, insertRep, h]

/-- Witness for C10: the theorem applied to the wire names aB and a_b. -/
theorem c10_duplicate_normalized_names_witness :
    buildFieldMaps GenState.new [("aB", none, .int), ("a_b", none, .string)] ([], [], [])
      = .ok ([(sanitize (to_snake_case ("a_b")), "String")],
          [(sanitize (to_snake_case ("a_b")), "a_b")],
          [(sanitize (to_snake_case ("a_b")), "String::default()")]) :=
  c10_duplicate_normalized_names.1 ("aB") "a_b" GenState.new (by decide)

set_option maxRecDepth 8192 in
/-- Claim C6 is refuted at this input: the record named "self" camel-cases
to the reserved word "Self", yet `str_record` emits the struct under the
unsanitized name "Self", not under "Self_" as the claim requires for every
record type name. -/
theorem c6_counterexample :
    str_record (.record ("self") []) GenState.new
      = .ok (renderRecordSorted ("Self") [] [] [])
    ∧ str_record (.record ("self") []) GenState.new
      ≠ .ok (renderRecordSorted ("Self_") [] [] []) :=
  ⟨rfl, by decide⟩

/-- Claim C6 (amended): `sanitize` appends the underscore exactly on the
reserved-word set; enum and fixed type names and all field names pass
through it, and original wire names are retained for record fields and enum
symbols, with a serde rename marker emitted exactly when the normalized
identifier differs from the original.  The top-level record type name,
however, is emitted as the bare camel-case without `sanitize`. -/
theorem c6_amended :
    (∀ w : String, w ∈ RESERVED → sanitize w = w ++ "_")
    ∧ (∀ w : String, w ∉ RESERVED → sanitize w = w)
    ∧ (∀ (n : String) (size : Nat),
      str_fixed (.fixed n size) = .ok (renderFixedText (sanitize (to_camel_case n)) size))
    ∧ (∀ (n s₀ : String) (rest : List String),
      str_enum (.enum n (s₀ :: rest))
        = .ok (renderEnumText (sanitize (to_camel_case n)) (buildSymPairs (s₀ :: rest))))
    ∧ (∀ (n : String) (fields : List (String × Option Json × Schema)) (gs : GenState)
        (f o d : List SPair),
      buildFieldMaps gs fields ([], [], []) = .ok (f, o, d) →
      str_record (.record n fields) gs = .ok (renderRecordText (to_camel_case n) f o d))
    ∧ (∀ (n fname : String) (gs : GenState),
      str_record (.record n [(fname, none, .int)]) gs
        = .ok (renderRecordText (to_camel_case n)
            [(sanitize (to_snake_case fname), "i32")]
            [(sanitize (to_snake_case fname), fname)]
            [(sanitize (to_snake_case fname), "0")]))
    ∧ (∀ (os : List SPair) (p : SPair), p.1 ≠ lookupKey os p.1 →
      recordFieldLine os p
        = "\n    #[serde(rename = \"" ++ lookupKey os p.1 ++ "\")]" ++ "\n    pub "
          ++ p.1 ++ ": " ++ p.2 ++ ",")
    ∧ (∀ p : SPair, p.1 ≠ p.2 →
      enumSymbolLine p
        = "\n    #[serde(rename = \"" ++ p.2 ++ "\")]" ++ "\n    " ++ p.1 ++ ",") := by
  refine ⟨fun w hw => ?_, fun w hw => ?_, fun _ _ => rfl, fun _ _ _ => rfl,
    fun n fields gs f o d hb => ?_, fun _ _ _ => rfl, fun os p hp => ?_, fun p hp => ?_⟩
  · simp [sanitize, List.elem_iff, hw]
  · simp [sanitize, List.elem_iff, hw]
  · simp only [str_record, hb]
  · simp only [recordFieldLine]
    rw [if_neg hp]
  · simp only [enumSymbolLine]
    rw [if_neg hp]

/-- Witness for C6 (amended): the reserved word "as" gains the suffix, a
non-reserved name is unchanged, a one-field record goes through the
field-map pipeline, and a renamed field emits its serde marker. -/
theorem c6_amended_witness :
    sanitize ("as") = "as" ++ "_"
    ∧ sanitize ("Colors") = "Colors"
    ∧ str_record (.record ("r") [("x", none, .int)]) GenState.new
      = .ok (renderRecordText (to_camel_case ("r")) [("x", "i32")] [("x", "x")] [("x", "0")])
    ∧ recordFieldLine [("a_b", "aB")] ("a_b", "i32")
      = "\n    #[serde(rename = \"" ++ lookupKey [("a_b", "aB")] ("a_b") ++ "\")]"
        ++ "\n    pub " ++ "a_b" ++ ": " ++ "i32" ++ "," :=
  ⟨c6_amended.1 ("as") (by decide),
   c6_amended.2.1 ("Colors") (by decide),
   c6_amended.2.2.2.2.1 ("r") [("x", none, .int)] GenState.new [("x", "i32")] [("x", "x")]
     [("x", "0")] rfl,
   c6_amended.2.2.2.2.2.2.1 [("a_b", "aB")] ("a_b", "i32") (by decide)⟩

set_option maxRecDepth 8192 in
/-- Claim C8 is refuted at this input: the bytes default "ÿ" holds one
character, but the generated default is the two-byte sequence
vec![195, 191] (its UTF-8 encoding), not the single raw byte vec![255] that
a one-byte-per-character interpretation requires. -/
theorem c8_counterexample :
    str_record (.record ("R") [("b", some (.str ("ÿ")), .bytes)]) GenState.new
      = .ok (renderRecordSorted ("R") [("b", "Vec<u8>")] [("b", "b")] [("b", "vec![195, 191]")])
    ∧ str_record (.record ("R") [("b", some (.str ("ÿ")), .bytes)]) GenState.new
      ≠ .ok (renderRecordSorted ("R") [("b", "Vec<u8>")] [("b", "b")] [("b", "vec![255]")]) :=
  ⟨rfl, by decide⟩

/-- Claim C8 (amended): a string default of a Bytes or Fixed field is
interpreted as its UTF-8 byte sequence (so an ASCII character contributes
one byte, a non-ASCII character several); for Fixed(size) the UTF-8 byte
count must equal size exactly, anything else failing at the invalid-default
site, and in particular a Fixed of size 2 with the 3-byte default "abc"
fails. -/
theorem c8_amended :
    (∀ (rn fname s : String) (gs : GenState),
      str_record (.record rn [(fname, some (.str s), .bytes)]) gs
        = .ok (renderRecordText (to_camel_case rn)
            [(sanitize (to_snake_case fname), "Vec<u8>")]
            [(sanitize (to_snake_case fname), fname)]
            [(sanitize (to_snake_case fname), "vec!" ++ rustDebugList (utf8Str s))]))
    ∧ (∀ (rn fname fx s : String) (size : Nat) (gs : GenState),
      (utf8Str s).length = size →
      str_record (.record rn [(fname, some (.str s), .fixed fx size)]) gs
        = .ok (renderRecordText (to_camel_case rn)
            [(sanitize (to_snake_case fname), sanitize (to_camel_case fx))]
            [(sanitize (to_snake_case fname), fname)]
            [(sanitize (to_snake_case fname), rustDebugList (utf8Str s))]))
    ∧ (∀ (rn fname fx s : String) (size : Nat) (gs : GenState),
      (utf8Str s).length ≠ size →
      str_record (.record rn [(fname, some (.str s), .fixed fx size)]) gs
        = .error .invalidDefault)
    ∧ str_record (.record ("R") [("f", some (.str ("abc")), .fixed ("Md5") 2)]) GenState.new
      = .error .invalidDefault := by
  refine ⟨fun _ _ _ _ => rfl, fun rn fname fx s size gs h => ?_,
    fun rn fname fx s size gs h => ?_, rfl⟩
  · simp only [str_record, buildFieldMaps, fieldTypeDefault]
    rw [if_pos h]
    rfl
  · simp only [str_record, buildFieldMaps, fieldTypeDefault]
    rw [if_neg h]

/-- Witness for C8 (amended): a Fixed(2) field accepts the two-byte default
"ab" and rejects the three-byte default "abc". -/
theorem c8_amended_witness :
    str_record (.record ("F") [("f", some (.str ("ab")), .fixed ("Md5") 2)]) GenState.new
      = .ok (renderRecordText (to_camel_case ("F"))
          [(sanitize (to_snake_case ("f")), sanitize (to_camel_case ("Md5")))]
          [(sanitize (to_snake_case ("f")), "f")]
          [(sanitize (to_snake_case ("f")), rustDebugList (utf8Str ("ab")))])
    ∧ str_record (.record ("F") [("f", some (.str ("abc")), .fixed ("Md5") 2)]) GenState.new
      = .error .invalidDefault :=
  ⟨c8_amended.2.1 ("F") "f" "Md5" "ab" 2 GenState.new (by decide),
   c8_amended.2.2.1 ("F") "f" "Md5" "abc" 2 GenState.new (by decide)⟩
